import Mathlib

/-! Shallow embedding of the sigfox-cli repository core: the low-level
HTTP request layer (src/sigfox_cli/client.py), the resource facades
(src/sigfox/api) and the pydantic resource models (src/sigfox/models),
together with proofs settling the specification claims about them. -/

namespace Sigfox

/-- JSON values as exchanged with the remote API.  Numbers are modelled
as integers: no claim depends on fractional arithmetic, only on which
keys are present and on string, boolean and integer payloads. -/
inductive Json where
  | null : Json
  | bool (b : Bool) : Json
  | num (n : Int) : Json
  | str (s : String) : Json
  | arr (elems : List Json) : Json
  | obj (fields : List (String × Json)) : Json

/-- First-match association lookup; this is Python dict lookup for the
key/value lists the code builds (which never repeat a key). -/
def lookupKey : List (String × Json) → String → Option Json
  | [], _ => none
  | (k, v) :: rest, key => if k = key then some v else lookupKey rest key

/-- Python dict.get(key, default) on a JSON object.  The code only calls
.get on values that are objects; on a non-object Python would raise
AttributeError, which no claim exercises. -/
def Json.getD (j : Json) (key : String) (dflt : Json) : Json :=
  match j with
  | .obj fs =>
    match lookupKey fs key with
    | some v => v
    | none => dflt
  | _ => dflt

/-- Python dict.get(key) with its implicit None default. -/
def Json.getOpt (j : Json) (key : String) : Option Json :=
  match j with
  | .obj fs => lookupKey fs key
  | _ => none

/-- Python truthiness of a JSON value: bool(x) for the decoded value. -/
def Json.falsy : Json → Bool
  | .null => true
  | .bool b => !b
  | .num n => n == 0
  | .str s => s == ""
  | .arr xs => xs.isEmpty
  | .obj fs => fs.isEmpty

/-- The elements of an array value.  The pagination loop only ever
extends its accumulator from array-valued data fields; a non-array
truthy value would make Python iterate it element-wise or raise, which
no claim exercises (claim C10 assumes array data explicitly). -/
def Json.asArr : Json → List Json
  | .arr xs => xs
  | _ => []

/-- Whether a JSON value is an array. -/
def Json.isArr : Json → Bool
  | .arr _ => true
  | _ => false

/-- Python truthiness test applied to a dict.get result, where absence
is Python None and hence falsy. -/
def pyFalsyOpt : Option Json → Bool
  | none => true
  | some v => v.falsy

/-- Python str() of a JSON value as far as the claims need it: scalar
values render exactly; container rendering is abbreviated, since no
claim inspects a non-scalar server message field. -/
def Json.pyStr : Json → String
  | .null => "None"
  | .bool true => "True"
  | .bool false => "False"
  | .num n => toString n
  | .str s => s
  | .arr _ => "[...]"
  | .obj _ => "\x7b...\x7d"

/-- Query parameters: an insertion-ordered string-keyed mapping, the
Python dict passed as params. -/
abbrev Params := List (String × Json)

/-- Python dict assignment params[key] = value: replaces in place when
the key exists, appends otherwise. -/
def setParam : Params → String → Json → Params
  | [], k, v => [(k, v)]
  | (k0, v0) :: rest, k, v =>
    if k0 = k then (k, v) :: rest else (k0, v0) :: setParam rest k v

/-- params.get(key, default) for the integer-valued pagination keys. -/
def getIntD (ps : Params) (key : String) (dflt : Int) : Int :=
  match lookupKey ps key with
  | some (.num n) => n
  | _ => dflt

/-- An HTTP response as the client sees it: status code, raw body text,
and the JSON parse of the body.  jsonBody is none exactly when
response.json() would raise, in particular for an empty body. -/
structure HttpResponse where
  status : Nat
  text : String
  jsonBody : Option Json

/-- Everything a single request attempt can surface: the errors of
src/sigfox_cli/exceptions.py raised by the client, plus the raw
json.JSONDecodeError that response.json() raises on an unparseable
body, plus the pydantic validation failure raised while parsing
records. -/
inductive PyError where
  | authenticationError (msg : String)
  | authorizationError (msg : String)
  | notFoundError (msg : String)
  | apiError (msg : String) (statusCode : Nat) (responseBody : String)
  | networkError (msg : String)
  | jsonDecodeError
  | validationError (msg : String)

/-- Outcome of one transport-level send: an HTTP response, or an
httpx.NetworkError (DNS failure, connection refused, ...), or an
httpx.TimeoutException.  No response is received in the last two. -/
inductive TransportResult where
  | response (r : HttpResponse)
  | networkFailure (m : String)
  | timeout (m : String)

/-- The client state set up by SigfoxClient.__init__: credentials,
base URL and timeout, held for the life of the instance and applied to
every request by the underlying httpx.Client. -/
structure SigfoxClient where
  apiLogin : String
  apiPassword : String
  baseUrl : String
  timeout : Nat

/-- The headers configured once on the underlying httpx.Client and sent
with every request. -/
def jsonHeaders : List (String × String) :=
  [("Accept", "application/json"), ("Content-Type", "application/json")]

/-- One outbound HTTP request with everything the transport attaches:
method, full URL, query parameters, optional JSON body, the configured
headers and the basic-auth credential pair. -/
structure HttpRequest where
  method : String
  url : String
  params : Params
  jsonData : Option Json
  headers : List (String × String)
  auth : String × String

/-- The single request each verb method constructs: url is base_url +
path, and the session-level auth and headers apply. -/
def SigfoxClient.request (c : SigfoxClient) (method path : String)
    (data : Option Json) (params : Params) : HttpRequest :=
  { method := method
    url := c.baseUrl ++ path
    params := params
    jsonData := data
    headers := jsonHeaders
    auth := (c.apiLogin, c.apiPassword) }

/-- The error message text computed by _handle_error: the message field
of the JSON error body when the body is a JSON object carrying one
(stringified by the f-string), the raw response text otherwise (also
when .get on a non-dict raises and is caught). -/
def errorMessage (r : HttpResponse) : String :=
  match r.jsonBody with
  | some (.obj fs) =>
    match lookupKey fs "message" with
    | some v => v.pyStr
    | none => r.text
  | _ => r.text

/-- SigfoxClient._handle_error: nothing on a success status (2xx),
AuthenticationError on 401, AuthorizationError on 403, NotFoundError on
404, APIError carrying status code and raw body on any other status of
at least 400, nothing on the remaining statuses. -/
def handleError (r : HttpResponse) : Option PyError :=
  if 200 ≤ r.status ∧ r.status < 300 then none
  else if r.status = 401 then
    some (.authenticationError
      ("Authentication failed: " ++ errorMessage r ++
        ". Please check your API credentials."))
  else if r.status = 403 then
    some (.authorizationError
      ("Authorization failed: " ++ errorMessage r ++
        ". You don\x27t have permission to access this resource."))
  else if r.status = 404 then
    some (.notFoundError ("Resource not found: " ++ errorMessage r))
  else if 400 ≤ r.status then
    some (.apiError
      ("API error (status " ++ toString r.status ++ "): " ++ errorMessage r)
      r.status r.text)
  else none

/-- SigfoxClient.get: builds the one GET request, sends it, classifies
the response with _handle_error and returns the parsed JSON body.  Only
the transport exceptions are caught and re-raised as NetworkError; the
taxonomy errors and a JSON decode failure propagate as they are. -/
def SigfoxClient.get (c : SigfoxClient) (send : HttpRequest → TransportResult)
    (path : String) (params : Params) : HttpRequest × Except PyError Json :=
  let req := c.request "GET" path none params
  (req,
    match send req with
    | .networkFailure m => .error (.networkError ("Network error: " ++ m))
    | .timeout m => .error (.networkError ("Request timeout: " ++ m))
    | .response r =>
      match handleError r with
      | some e => .error e
      | none =>
        match r.jsonBody with
        | some j => .ok j
        | none => .error .jsonDecodeError)

/-- SigfoxClient.post: as get, with a JSON body attached. -/
def SigfoxClient.post (c : SigfoxClient) (send : HttpRequest → TransportResult)
    (path : String) (data : Option Json) (params : Params) :
    HttpRequest × Except PyError Json :=
  let req := c.request "POST" path data params
  (req,
    match send req with
    | .networkFailure m => .error (.networkError ("Network error: " ++ m))
    | .timeout m => .error (.networkError ("Request timeout: " ++ m))
    | .response r =>
      match handleError r with
      | some e => .error e
      | none =>
        match r.jsonBody with
        | some j => .ok j
        | none => .error .jsonDecodeError)

/-- Modelled from the spec: SigfoxClient.put.  The module implementing
put and delete is missing from the sources at hand (the facades import
it and tests/test_client_put_delete.py exercises it, but
src/sigfox_cli/client.py stops after get_paginated).  Per spec section
4.2 and the tests: one PUT request with the same auth, headers and
error classification as get and post; a success response with an empty
body yields an empty mapping, otherwise the parsed JSON body. -/
def SigfoxClient.put (c : SigfoxClient) (send : HttpRequest → TransportResult)
    (path : String) (data : Option Json) (params : Params) :
    HttpRequest × Except PyError Json :=
  let req := c.request "PUT" path data params
  (req,
    match send req with
    | .networkFailure m => .error (.networkError ("Network error: " ++ m))
    | .timeout m => .error (.networkError ("Request timeout: " ++ m))
    | .response r =>
      match handleError r with
      | some e => .error e
      | none =>
        if r.text = "" then .ok (.obj [])
        else
          match r.jsonBody with
          | some j => .ok j
          | none => .error .jsonDecodeError)

/-- Modelled from the spec: SigfoxClient.delete, missing from the
sources at hand like put.  Per spec section 4.2 and the tests: one
DELETE request with the shared auth, headers and error classification;
an empty success body yields an empty mapping. -/
def SigfoxClient.delete (c : SigfoxClient) (send : HttpRequest → TransportResult)
    (path : String) (params : Params) : HttpRequest × Except PyError Json :=
  let req := c.request "DELETE" path none params
  (req,
    match send req with
    | .networkFailure m => .error (.networkError ("Network error: " ++ m))
    | .timeout m => .error (.networkError ("Request timeout: " ++ m))
    | .response r =>
      match handleError r with
      | some e => .error e
      | none =>
        if r.text = "" then .ok (.obj [])
        else
          match r.jsonBody with
          | some j => .ok j
          | none => .error .jsonDecodeError)

/-- The loop body of SigfoxClient.get_paginated.  The server is
abstracted as the function from the query parameters of a successful
GET to its parsed JSON body (an error response would abort the loop by
propagation, which no pagination claim exercises).  The result pairs
the accumulated items with the parameter dict of every request issued;
fuel bounds the recursion, and none means the loop was still running
when the fuel ran out. -/
def getPaginatedLoop (server : Params → Json) (params : Params)
    (limit : Option Nat) (pageLimit offset : Int) (acc : List Json) :
    Nat → Option (List Json × List Params)
  | 0 => none
  | fuel + 1 =>
    let ps := setParam (setParam params "offset" (.num offset)) "limit" (.num pageLimit)
    let responseData := server ps
    let items := responseData.getD "data" (.arr [])
    if items.falsy then some (acc, [ps])
    else
      let allItems := acc ++ items.asArr
      if (match limit with | some l => decide (l ≤ allItems.length) | none => false) then
        some ((match limit with | some l => allItems.take l | none => allItems), [ps])
      else
        let paging := responseData.getD "paging" (.obj [])
        let nextUrl := paging.getOpt "next"
        if pyFalsyOpt nextUrl then some (allItems, [ps])
        else
          match getPaginatedLoop server params limit pageLimit
              (offset + (items.asArr.length : Int)) allItems fuel with
          | none => none
          | some (res, reqs) => some (res, ps :: reqs)

/-- SigfoxClient.get_paginated: reads the starting offset and the page
size out of params (defaults 0 and 100), then runs the accumulation
loop.  The Python loop is unbounded; the explicit fuel only serves the
embedding, and the theorems show the loop finishes before exhausting
it. -/
def getPaginated (server : Params → Json) (params : Params)
    (limit : Option Nat) (fuel : Nat) : Option (List Json × List Params) :=
  let offset := getIntD params "offset" 0
  let pageLimit := getIntD params "limit" 100
  getPaginatedLoop server params limit pageLimit offset [] fuel

/-! Facade query-parameter construction.  Every list method builds its
params dict by a row of guarded insertions with pairwise distinct keys;
each guard shape gets one builder, and a params dict built by
successive insertions of distinct keys is their concatenation. -/

/-- A parameter included when the argument is not None (the limit and
offset guards, which admit 0). -/
def optNumParam (nm : String) : Option Int → Params
  | some n => [(nm, Json.num n)]
  | none => []

/-- A string parameter included when the argument is truthy (None and
the empty string are both omitted). -/
def truthyStrParam (nm : String) : Option String → Params
  | some s => if s = "" then [] else [(nm, Json.str s)]
  | none => []

/-- A comma-joined list parameter included when the argument is a
non-empty list. -/
def joinListParam (nm : String) : Option (List String) → Params
  | some gs => if gs = [] then [] else [(nm, Json.str (String.intercalate "," gs))]
  | none => []

/-- A comma-joined list-of-int parameter (the groups types filter). -/
def intListParam (nm : String) : Option (List Int) → Params
  | some ts =>
    if ts = [] then []
    else [(nm, Json.str (String.intercalate "," (ts.map toString)))]
  | none => []

/-- A boolean flag serialized to the literal string true when set and
omitted entirely when not. -/
def flagParam (nm : String) (b : Bool) : Params :=
  if b then [(nm, Json.str "true")] else []

/-- How often a key occurs in a params dict. -/
def countKey (ps : Params) (k : String) : Nat :=
  (ps.filter (fun p => p.1 == k)).length

/-- The params dict DevicesAPI.list builds from its typed optional
filters (src/sigfox/api/devices.py). -/
def devicesListParams (limit offset : Option Int) (deviceTypeId : Option String)
    (groupIds : Option (List String)) (deep : Bool) (sort : Option String) : Params :=
  optNumParam "limit" limit
    ++ optNumParam "offset" offset
    ++ truthyStrParam "deviceTypeId" deviceTypeId
    ++ joinListParam "groupIds" groupIds
    ++ flagParam "deep" deep
    ++ truthyStrParam "sort" sort

/-- The params dict GroupsAPI.list builds from its typed optional
filters (src/sigfox/api/groups.py). -/
def groupsListParams (limit offset : Option Int) (parentIds : Option (List String))
    (deep : Bool) (nameFilter : Option String) (types : Option (List Int))
    (fieldsFilter : Option String) (action : Option String) (sort : Option String)
    (authorizations : Bool) (pageId : Option String) : Params :=
  optNumParam "limit" limit
    ++ optNumParam "offset" offset
    ++ joinListParam "parentIds" parentIds
    ++ flagParam "deep" deep
    ++ truthyStrParam "name" nameFilter
    ++ intListParam "types" types
    ++ truthyStrParam "fields" fieldsFilter
    ++ truthyStrParam "action" action
    ++ truthyStrParam "sort" sort
    ++ flagParam "authorizations" authorizations
    ++ truthyStrParam "pageId" pageId

/-! Write payload records (src/sigfox/models/device.py).  Latitude and
longitude are floats in the source; they are modelled as integers since
only their presence matters to any claim. -/

/-- DeviceCreate: the typed payload for creating a device; id, name,
device_type_id and pac are required, the rest default to None. -/
structure DeviceCreate where
  id : String
  name : String
  device_type_id : String
  pac : String
  lat : Option Int := none
  lng : Option Int := none
  product_certificate : Option String := none
  prototype : Option Bool := none
  automatic_renewal : Option Bool := none
  activable : Option Bool := none

/-- DeviceUpdate: the all-optional partial-update payload. -/
structure DeviceUpdate where
  name : Option String := none
  lat : Option Int := none
  lng : Option Int := none
  product_certificate : Option String := none
  prototype : Option Bool := none
  automatic_renewal : Option Bool := none
  activable : Option Bool := none

/-- One optional field of a model_dump: present under its wire name
exactly when set. -/
def optDump (nm : String) : Option Json → List (String × Json)
  | some v => [(nm, v)]
  | none => []

/-- model_dump(by_alias=True, exclude_none=True) for DeviceCreate: the
set fields under their wire names, in declaration order. -/
def DeviceCreate.dump (d : DeviceCreate) : List (String × Json) :=
  [("id", Json.str d.id), ("name", Json.str d.name),
   ("deviceTypeId", Json.str d.device_type_id), ("pac", Json.str d.pac)]
    ++ optDump "lat" (d.lat.map Json.num)
    ++ optDump "lng" (d.lng.map Json.num)
    ++ optDump "productCertificate" (d.product_certificate.map Json.str)
    ++ optDump "prototype" (d.prototype.map Json.bool)
    ++ optDump "automaticRenewal" (d.automatic_renewal.map Json.bool)
    ++ optDump "activable" (d.activable.map Json.bool)

/-- model_dump(by_alias=True, exclude_none=True) for DeviceUpdate. -/
def DeviceUpdate.dump (d : DeviceUpdate) : List (String × Json) :=
  optDump "name" (d.name.map Json.str)
    ++ optDump "lat" (d.lat.map Json.num)
    ++ optDump "lng" (d.lng.map Json.num)
    ++ optDump "productCertificate" (d.product_certificate.map Json.str)
    ++ optDump "prototype" (d.prototype.map Json.bool)
    ++ optDump "automaticRenewal" (d.automatic_renewal.map Json.bool)
    ++ optDump "activable" (d.activable.map Json.bool)

/-- Stated from the specification wording, for comparison with the dump
of the source models: the wire names of exactly the fields that are
set on a DeviceCreate. -/
def DeviceCreate.specSetWireKeys (d : DeviceCreate) : List String :=
  ["id", "name", "deviceTypeId", "pac"]
    ++ (if d.lat.isSome then ["lat"] else [])
    ++ (if d.lng.isSome then ["lng"] else [])
    ++ (if d.product_certificate.isSome then ["productCertificate"] else [])
    ++ (if d.prototype.isSome then ["prototype"] else [])
    ++ (if d.automatic_renewal.isSome then ["automaticRenewal"] else [])
    ++ (if d.activable.isSome then ["activable"] else [])

/-- Stated from the specification wording: the wire names of exactly
the fields that are set on a DeviceUpdate. -/
def DeviceUpdate.specSetWireKeys (d : DeviceUpdate) : List String :=
  (if d.name.isSome then ["name"] else [])
    ++ (if d.lat.isSome then ["lat"] else [])
    ++ (if d.lng.isSome then ["lng"] else [])
    ++ (if d.product_certificate.isSome then ["productCertificate"] else [])
    ++ (if d.prototype.isSome then ["prototype"] else [])
    ++ (if d.automatic_renewal.isSome then ["automaticRenewal"] else [])
    ++ (if d.activable.isSome then ["activable"] else [])

/-! Read models.  Every resource model in src/sigfox/models is a
pydantic BaseModel with ConfigDict(extra=allow, populate_by_name=True)
and an explicit alias per camelCase wire field; the embedding makes the
name table explicit per record type and validates against it, keeping
every unrecognized key in a catch-all extra mapping. -/

/-- The value shape a declared model field accepts; fcheck carries the
checker of a nested-model or list-of-model field. -/
inductive FieldType where
  | fstr : FieldType
  | fint : FieldType
  | fnum : FieldType
  | fbool : FieldType
  | fintList : FieldType
  | fcheck (check : Json → Bool) : FieldType

/-- One declared field: Python name, wire name (equal to the Python
name when the field has no alias), requiredness, value shape. -/
structure FieldSpec where
  pyName : String
  wireName : String
  required : Bool
  ty : FieldType

/-- Whether a JSON value has a field shape. -/
def checkType : FieldType → Json → Bool
  | .fstr, .str _ => true
  | .fint, .num _ => true
  | .fnum, .num _ => true
  | .fbool, .bool _ => true
  | .fintList, .arr xs =>
    xs.all (fun e => match e with | .num _ => true | _ => false)
  | .fcheck c, j => c j
  | _, _ => false

/-- Field extraction under populate_by_name: the wire alias is
consulted first, then the Python field name. -/
def parseField (fs : List (String × Json)) (s : FieldSpec) : Option Json :=
  match lookupKey fs s.wireName with
  | some v => some v
  | none => lookupKey fs s.pyName

/-- One field validates: absent or null is accepted exactly for
optional fields, a present value must have the declared shape. -/
def checkField (fs : List (String × Json)) (s : FieldSpec) : Bool :=
  match parseField fs s with
  | none => !s.required
  | some .null => !s.required
  | some v => checkType s.ty v

/-- All declared fields of a record validate against an object body. -/
def recordOk (specs : List FieldSpec) (fs : List (String × Json)) : Bool :=
  specs.all (checkField fs)

/-- A key is known to a record: it is some declared field, under either
its wire name or its Python name. -/
def knownKey (specs : List FieldSpec) (k : String) : Bool :=
  specs.any (fun s => s.wireName == k || s.pyName == k)

/-- A validated record: the recognized raw field pairs and the
catch-all extra mapping holding every unrecognized pair. -/
structure DynRecord where
  fields : List (String × Json)
  extra : List (String × Json)

/-- Model validation (pydantic model_validate under extra=allow): fails
on a non-object and on a declared-field violation, and otherwise splits
the pairs into recognized fields and the preserved extra mapping. -/
def validateRecord (specs : List FieldSpec) : Json → Except String DynRecord
  | .obj fs =>
    if recordOk specs fs then
      .ok { fields := fs.filter (fun p => knownKey specs p.1)
            extra := fs.filter (fun p => !knownKey specs p.1) }
    else .error "validation error"
  | _ => .error "input is not an object"

/-- A nested-model field accepts an object validating the nested name
table. -/
def nestedOk (specs : List FieldSpec) (j : Json) : Bool :=
  match j with
  | .obj fs => recordOk specs fs
  | _ => false

/-- A list-of-model field accepts an array of such objects. -/
def listOfOk (specs : List FieldSpec) (j : Json) : Bool :=
  match j with
  | .arr xs => xs.all (nestedOk specs)
  | _ => false

/-- The name table of the nested DeviceType reference
(src/sigfox/models/device.py). -/
def deviceTypeFields : List FieldSpec :=
  [⟨"id", "id", false, .fstr⟩,
   ⟨"name", "name", false, .fstr⟩]

/-- The name table of Device (src/sigfox/models/device.py): id is
required, every other field is optional, camelCase wire aliases as
declared. -/
def deviceFields : List FieldSpec :=
  [⟨"id", "id", true, .fstr⟩,
   ⟨"name", "name", false, .fstr⟩,
   ⟨"device_type", "deviceType", false, .fcheck (nestedOk deviceTypeFields)⟩,
   ⟨"state", "state", false, .fint⟩,
   ⟨"com_state", "comState", false, .fint⟩,
   ⟨"last_com", "lastCom", false, .fint⟩,
   ⟨"creation_time", "creationTime", false, .fint⟩,
   ⟨"activation_time", "activationTime", false, .fint⟩,
   ⟨"pac", "pac", false, .fstr⟩,
   ⟨"sequence_number", "sequenceNumber", false, .fint⟩,
   ⟨"lqi", "lqi", false, .fint⟩,
   ⟨"satellite_capable", "satelliteCapable", false, .fbool⟩,
   ⟨"repeater", "repeater", false, .fbool⟩,
   ⟨"automatic_renewal", "automaticRenewal", false, .fbool⟩,
   ⟨"lat", "lat", false, .fnum⟩,
   ⟨"lng", "lng", false, .fnum⟩,
   ⟨"prototype", "prototype", false, .fbool⟩,
   ⟨"activable", "activable", false, .fbool⟩]

/-- The name table of CoverageBulkResult (src/sigfox/models/coverage.py). -/
def coverageBulkResultFields : List FieldSpec :=
  [⟨"lat", "lat", false, .fnum⟩,
   ⟨"lng", "lng", false, .fnum⟩,
   ⟨"location_covered", "locationCovered", false, .fbool⟩,
   ⟨"margins", "margins", false, .fintList⟩]

/-- The name table of CoverageBulkResponse
(src/sigfox/models/coverage.py). -/
def coverageBulkResponseFields : List FieldSpec :=
  [⟨"job_done", "jobDone", false, .fbool⟩,
   ⟨"time", "time", false, .fint⟩,
   ⟨"results", "results", false, .fcheck (listOfOk coverageBulkResultFields)⟩]

/-! The Devices facade (src/sigfox/api/devices.py), built over the
shared client. -/

/-- DevicesAPI.list: builds the filter params, issues one GET to the
devices collection, and parses each element of the data array into a
Device record (a pydantic failure on any element propagates). -/
def DevicesAPI.list (c : SigfoxClient) (send : HttpRequest → TransportResult)
    (limit offset : Option Int) (deviceTypeId : Option String)
    (groupIds : Option (List String)) (deep : Bool) (sort : Option String) :
    HttpRequest × Except PyError (List DynRecord) :=
  let params := devicesListParams limit offset deviceTypeId groupIds deep sort
  let res := SigfoxClient.get c send "/devices/" params
  (res.1,
    match res.2 with
    | .error e => .error e
    | .ok responseData =>
      match (responseData.getD "data" (.arr [])).asArr.mapM
          (validateRecord deviceFields) with
      | .ok ds => .ok ds
      | .error m => .error (.validationError m))

/-- DevicesAPI.create: serializes the payload by model_dump with
by_alias and exclude_none, posts it to the collection, and parses the
returned record. -/
def DevicesAPI.create (c : SigfoxClient) (send : HttpRequest → TransportResult)
    (data : DeviceCreate) : HttpRequest × Except PyError DynRecord :=
  let res := SigfoxClient.post c send "/devices/" (some (.obj data.dump)) []
  (res.1,
    match res.2 with
    | .error e => .error e
    | .ok j =>
      match validateRecord deviceFields j with
      | .ok d => .ok d
      | .error m => .error (.validationError m))

/-- DevicesAPI.update: serializes the partial payload the same way and
issues one PUT to the device path; the body of a successful response is
discarded, so success is exactly the absence of an error. -/
def DevicesAPI.update (c : SigfoxClient) (send : HttpRequest → TransportResult)
    (deviceId : String) (data : DeviceUpdate) : HttpRequest × Except PyError Unit :=
  let res := SigfoxClient.put c send ("/devices/" ++ deviceId) (some (.obj data.dump)) []
  (res.1,
    match res.2 with
    | .ok _ => .ok ()
    | .error e => .error e)

/-- DevicesAPI.delete: issues one DELETE to the device path, discarding
the successful body. -/
def DevicesAPI.delete (c : SigfoxClient) (send : HttpRequest → TransportResult)
    (deviceId : String) : HttpRequest × Except PyError Unit :=
  let res := SigfoxClient.delete c send ("/devices/" ++ deviceId) []
  (res.1,
    match res.2 with
    | .ok _ => .ok ()
    | .error e => .error e)

/-! Concrete fixtures used by the claim theorems and witnesses. -/

/-- A client with concrete credentials. -/
def demoClient : SigfoxClient :=
  { apiLogin := "login", apiPassword := "secret"
    baseUrl := "https://api.sigfox.com/v2", timeout := 30 }

/-- A transport answering every request with 204 No Content (empty
body, hence no JSON parse). -/
def send204 : HttpRequest → TransportResult :=
  fun _ => .response { status := 204, text := "", jsonBody := none }

/-- The n-th list item of the paging fixtures. -/
def pageItem (n : Int) : Json :=
  .obj [("id", .str (toString n))]

/-- A server serving 5 items in pages of 2, 2 and 1, with a next token
on every page except the last (which carries no paging object). -/
def threePageServer (ps : Params) : Json :=
  let off := getIntD ps "offset" 0
  if off = 0 then
    .obj [("data", .arr [pageItem 1, pageItem 2]),
          ("paging", .obj [("next", .str "https://api.sigfox.com/v2/devices/?offset=2")])]
  else if off = 2 then
    .obj [("data", .arr [pageItem 3, pageItem 4]),
          ("paging", .obj [("next", .str "https://api.sigfox.com/v2/devices/?offset=4")])]
  else if off = 4 then
    .obj [("data", .arr [pageItem 5])]
  else
    .obj [("data", .arr [])]

/-- A server whose first page is non-empty and carries a paging object
with the next field present but equal to the empty string, and whose
further pages are non-empty; a follower keyed on mere presence of next
would request page two. -/
def emptyNextServer (ps : Params) : Json :=
  if getIntD ps "offset" 0 = 0 then
    .obj [("data", .arr [pageItem 1]), ("paging", .obj [("next", .str "")])]
  else
    .obj [("data", .arr [pageItem 2]),
          ("paging", .obj [("next", .str "https://api.sigfox.com/v2/devices/?more")])]

/-- A family of servers over the possible next values: the first page
has one item and a paging object carrying next exactly when the
parameter is some value; the second page has one item and no paging
object, so a continuing follower stops after two requests. -/
def nextFamilyServer (next : Option Json) (ps : Params) : Json :=
  if getIntD ps "offset" 0 = 0 then
    .obj [("data", .arr [pageItem 1]),
          ("paging", .obj (match next with | some v => [("next", v)] | none => []))]
  else
    .obj [("data", .arr [pageItem 2])]

/-- A server always answering with an empty data array. -/
def emptyPageServer : Params → Json :=
  fun _ => .obj [("data", .arr [])]

/-- A 401 response whose JSON body carries a server message. -/
def r401 : HttpResponse :=
  { status := 401, text := "irrelevant raw body"
    jsonBody := some (.obj [("message", .str "bad key")]) }

/-- A 200 response carrying a full JSON record. -/
def rOk : HttpResponse :=
  { status := 200, text := "nonempty"
    jsonBody := some (.obj [("id", .str "1A2B3C")]) }

/-- A transport answering every request with the rOk response. -/
def sendOkBody : HttpRequest → TransportResult :=
  fun _ => .response rOk

/-- A transport failing every request at the connection level. -/
def netFailSend : HttpRequest → TransportResult :=
  fun _ => .networkFailure "getaddrinfo failed"

/-- A transport timing out every request. -/
def timeoutSend : HttpRequest → TransportResult :=
  fun _ => .timeout "read timed out"

/-- An update payload with no field set. -/
def emptyUpdate : DeviceUpdate := {}

/-! Shared lemmas about association lookup and key counting. -/

theorem lookupKey_eq_none_of_all_ne {ys : List (String × Json)} {k : String}
    (h : ∀ p ∈ ys, p.1 ≠ k) : lookupKey ys k = none := by
  induction ys with
  | nil => rfl
  | cons y yt ih =>
    have hy := h y (by simp)
    simp only [lookupKey, if_neg hy]
    exact ih fun p hp => h p (by simp [hp])

theorem lookupKey_append_unknown {fs ys : List (String × Json)} {k : String}
    (h : ∀ p ∈ ys, p.1 ≠ k) : lookupKey (fs ++ ys) k = lookupKey fs k := by
  induction fs with
  | nil => simpa using lookupKey_eq_none_of_all_ne h
  | cons f ft ih =>
    by_cases hf : f.1 = k
    · simp [lookupKey, hf]
    · simp [lookupKey, hf, ih]

theorem countKey_append (a b : Params) (k : String) :
    countKey (a ++ b) k = countKey a k + countKey b k := by
  simp [countKey, List.filter_append]

theorem lookupKey_eq_none_of_countKey_zero {a : Params} {k : String}
    (h : countKey a k = 0) : lookupKey a k = none := by
  apply lookupKey_eq_none_of_all_ne
  intro p hp hpk
  have hmem : p ∈ a.filter (fun p => p.1 == k) :=
    List.mem_filter.mpr ⟨hp, by simp [hpk]⟩
  rw [countKey, List.length_eq_zero] at h
  rw [h] at hmem
  simp at hmem

theorem lookupKey_append_of_none {a : Params} {k : String} (b : Params)
    (h : lookupKey a k = none) : lookupKey (a ++ b) k = lookupKey b k := by
  induction a with
  | nil => rfl
  | cons f ft ih =>
    by_cases hf : f.1 = k
    · simp [lookupKey, hf] at h
    · simp only [lookupKey, if_neg hf] at h ⊢
      exact ih h

theorem lookupKey_append_left {a : Params} {k : String} {v : Json} (b : Params)
    (h : lookupKey a k = some v) : lookupKey (a ++ b) k = some v := by
  induction a with
  | nil => simp [lookupKey] at h
  | cons f ft ih =>
    by_cases hf : f.1 = k
    · simpa [lookupKey, hf] using h
    · simp only [lookupKey, if_neg hf] at h ⊢
      exact ih h

theorem countKey_optNum (nm k : String) (o : Option Int) (h : nm ≠ k) :
    countKey (optNumParam nm o) k = 0 := by
  cases o <;> simp [optNumParam, countKey, h]

theorem countKey_truthyStr (nm k : String) (o : Option String) (h : nm ≠ k) :
    countKey (truthyStrParam nm o) k = 0 := by
  cases o with
  | none => rfl
  | some s =>
    by_cases hs : s = "" <;> simp [truthyStrParam, countKey, h, hs]

theorem countKey_joinList (nm k : String) (o : Option (List String)) (h : nm ≠ k) :
    countKey (joinListParam nm o) k = 0 := by
  cases o with
  | none => rfl
  | some gs =>
    by_cases hg : gs = [] <;> simp [joinListParam, countKey, h, hg]

theorem countKey_intList (nm k : String) (o : Option (List Int)) (h : nm ≠ k) :
    countKey (intListParam nm o) k = 0 := by
  cases o with
  | none => rfl
  | some ts =>
    by_cases ht : ts = [] <;> simp [intListParam, countKey, h, ht]

theorem countKey_flag (nm k : String) (b : Bool) (h : nm ≠ k) :
    countKey (flagParam nm b) k = 0 := by
  cases b <;> simp [flagParam, countKey, h]

theorem countKey_joinList_self (nm : String) {gs : List String} (h : gs ≠ []) :
    countKey (joinListParam nm (some gs)) nm = 1 := by
  simp [joinListParam, countKey, h]

theorem countKey_flag_true (nm : String) : countKey (flagParam nm true) nm = 1 := by
  simp [flagParam, countKey]

/-- Claim C3: on the 3-page sequence of 2, 2 and 1 items with no next
token on the last page, get_paginated with no caller limit returns
exactly the 5 items in order, and with limit 3 returns exactly the
first 3 items and stops early; every issued request carries the page
size under limit and the cursor under offset, the cursor advancing by
the item count of the previous page (0, 2, 4). -/
theorem claim3_pagination_scenario :
    getPaginated threePageServer [("limit", Json.num 2)] none 10 =
      some ([pageItem 1, pageItem 2, pageItem 3, pageItem 4, pageItem 5],
        [[("limit", Json.num 2), ("offset", Json.num 0)],
         [("limit", Json.num 2), ("offset", Json.num 2)],
         [("limit", Json.num 2), ("offset", Json.num 4)]]) ∧
    getPaginated threePageServer [("limit", Json.num 2)] (some 3) 10 =
      some ([pageItem 1, pageItem 2, pageItem 3],
        [[("limit", Json.num 2), ("offset", Json.num 0)],
         [("limit", Json.num 2), ("offset", Json.num 2)]]) := by
  constructor <;> rfl

/-- Claim C8 counterexample: a first page with one item, the caller
limit unreached, and a paging object whose next field is present but
equal to the empty string.  The claim says the follower continues on
mere presence, but the code stops: only one request is issued and only
the first page is returned, although next is present in the response. -/
theorem claim8_counterexample :
    getPaginated emptyNextServer [] none 5 =
      some ([pageItem 1], [[("offset", Json.num 0), ("limit", Json.num 100)]]) ∧
    ((emptyNextServer [("offset", Json.num 0), ("limit", Json.num 100)]).getD
        "paging" (.obj [])).getOpt "next" = some (.str "") := by
  constructor <;> rfl

/-- Claim C8 as amended: with a non-empty page and no limit pressure,
the follower continues exactly when the paging next field is present
and truthy in the Python sense; a missing next and a present-but-falsy
next (such as the empty string) both stop it. -/
theorem claim8_next_truthiness (next : Option Json) :
    (getPaginated (nextFamilyServer next) [] none 5).map (fun r => r.2.length) =
      some (if pyFalsyOpt next then 1 else 2) := by
  cases next with
  | none => rfl
  | some j =>
    cases hf : j.falsy with
    | true =>
      simp only [pyFalsyOpt, hf, if_true]
      simp [getPaginated, getPaginatedLoop, nextFamilyServer, getIntD, lookupKey,
        setParam, Json.getD, Json.getOpt, Json.asArr, pyFalsyOpt, hf]
      simp [Json.falsy]
      exact ⟨_, _, ⟨rfl, rfl⟩, rfl⟩
    | false =>
      simp only [pyFalsyOpt, hf, if_false]
      simp [getPaginated, getPaginatedLoop, nextFamilyServer, getIntD, lookupKey,
        setParam, Json.getD, Json.getOpt, Json.asArr, pyFalsyOpt, hf]
      simp [Json.falsy]
      exact ⟨_, _, ⟨rfl, rfl⟩, rfl⟩

/-- Claim C2 counterexample: a GET answered by 204 No Content (empty
body, hence no JSON parse) raises the JSON decode error instead of
returning an empty mapping, because SigfoxClient.get returns
response.json() with no empty-body guard. -/
theorem claim2_counterexample :
    (demoClient.get send204 "/devices/" []).2 = .error .jsonDecodeError ∧
    (demoClient.get send204 "/devices/" []).2 ≠ .ok (.obj []) := by
  constructor
  · rfl
  · simp [SigfoxClient.get, SigfoxClient.request, send204, handleError]

/-- Claim C2 as amended: on a success status with an empty body, put
and delete return an empty mapping, while get and post raise the JSON
decode error of response.json(); a non-empty 2xx body parses as JSON
for all four operations. -/
theorem claim2_empty_body (c : SigfoxClient) (send : HttpRequest → TransportResult)
    (path : String) (body : Option Json) (params : Params) (r : HttpResponse)
    (hsend : ∀ q, send q = .response r) (h1 : 200 ≤ r.status) (h2 : r.status < 300)
    (htext : r.text = "") (hjson : r.jsonBody = none) :
    (c.put send path body params).2 = .ok (.obj []) ∧
    (c.delete send path params).2 = .ok (.obj []) ∧
    (c.get send path params).2 = .error .jsonDecodeError ∧
    (c.post send path body params).2 = .error .jsonDecodeError := by
  have hh : handleError r = none := by
    unfold handleError
    rw [if_pos ⟨h1, h2⟩]
  refine ⟨?_, ?_, ?_, ?_⟩ <;>
    simp [SigfoxClient.put, SigfoxClient.delete, SigfoxClient.get, SigfoxClient.post,
      hsend, hh, htext, hjson]

/-- Witness for claim C2: the amended statement evaluated on a concrete
204 response. -/
theorem claim2_witness :
    ((∀ q, send204 q = .response { status := 204, text := "", jsonBody := none }) ∧
      200 ≤ 204 ∧ 204 < 300) ∧
    ((demoClient.put send204 "/x" none []).2 = .ok (.obj []) ∧
      (demoClient.delete send204 "/x" []).2 = .ok (.obj []) ∧
      (demoClient.get send204 "/x" []).2 = .error .jsonDecodeError ∧
      (demoClient.post send204 "/x" none []).2 = .error .jsonDecodeError) :=
  ⟨⟨fun _ => rfl, by decide, by decide⟩,
    claim2_empty_body demoClient send204 "/x" none []
      { status := 204, text := "", jsonBody := none }
      (fun _ => rfl) (by decide) (by decide) rfl rfl⟩

/-- Claim C4: _handle_error maps 401 to AuthenticationError, 403 to
AuthorizationError, 404 to NotFoundError, and every other status of at
least 400 to APIError carrying the numeric status and the raw body
text; and the embedded message is the server message field when the
body is a JSON object carrying one, falling back to the raw response
text otherwise. -/
theorem claim4_error_classification (r : HttpResponse) :
    (r.status = 401 → handleError r = some (.authenticationError
      ("Authentication failed: " ++ errorMessage r ++
        ". Please check your API credentials."))) ∧
    (r.status = 403 → handleError r = some (.authorizationError
      ("Authorization failed: " ++ errorMessage r ++
        ". You don\x27t have permission to access this resource."))) ∧
    (r.status = 404 → handleError r =
      some (.notFoundError ("Resource not found: " ++ errorMessage r))) ∧
    (400 ≤ r.status → r.status ≠ 401 → r.status ≠ 403 → r.status ≠ 404 →
      handleError r = some (.apiError
        ("API error (status " ++ toString r.status ++ "): " ++ errorMessage r)
        r.status r.text)) ∧
    (∀ fs m, r.jsonBody = some (.obj fs) → lookupKey fs "message" = some (.str m) →
      errorMessage r = m) ∧
    (∀ fs, r.jsonBody = some (.obj fs) → lookupKey fs "message" = none →
      errorMessage r = r.text) ∧
    (r.jsonBody = none → errorMessage r = r.text) := by
  refine ⟨?_, ?_, ?_, ?_, ?_, ?_, ?_⟩
  · intro h; simp [handleError, h]
  · intro h; simp [handleError, h]
  · intro h; simp [handleError, h]
  · intro h4 hn1 hn3 hn4
    have hns : ¬(200 ≤ r.status ∧ r.status < 300) := by omega
    simp [handleError, hns, hn1, hn3, hn4, h4]
  · intro fs m hb hm; simp [errorMessage, hb, hm, Json.pyStr]
  · intro fs hb hm; simp [errorMessage, hb, hm]
  · intro hb; simp [errorMessage, hb]

/-- Witness for claim C4: the 401 classification evaluated on a
concrete response carrying a server message. -/
theorem claim4_witness :
    r401.status = 401 ∧
    handleError r401 = some (.authenticationError
      "Authentication failed: bad key. Please check your API credentials.") := by
  refine ⟨rfl, ?_⟩
  have h := (claim4_error_classification r401).1 rfl
  rw [h]
  rfl

/-- Claim C5: when the single transport attempt fails without an HTTP
response, every request operation surfaces a NetworkError (connection
failures and timeouts both map to it) and nothing else; each operation
issues exactly one send by construction, so no retry happens. -/
theorem claim5_network_errors (c : SigfoxClient) (send : HttpRequest → TransportResult)
    (path : String) (body : Option Json) (params : Params) (m : String) :
    ((∀ q, send q = .networkFailure m) →
      (c.get send path params).2 = .error (.networkError ("Network error: " ++ m)) ∧
      (c.post send path body params).2 = .error (.networkError ("Network error: " ++ m)) ∧
      (c.put send path body params).2 = .error (.networkError ("Network error: " ++ m)) ∧
      (c.delete send path params).2 = .error (.networkError ("Network error: " ++ m))) ∧
    ((∀ q, send q = .timeout m) →
      (c.get send path params).2 = .error (.networkError ("Request timeout: " ++ m)) ∧
      (c.post send path body params).2 = .error (.networkError ("Request timeout: " ++ m)) ∧
      (c.put send path body params).2 = .error (.networkError ("Request timeout: " ++ m)) ∧
      (c.delete send path params).2 = .error (.networkError ("Request timeout: " ++ m))) := by
  constructor <;> intro h <;>
    exact ⟨by simp [SigfoxClient.get, h], by simp [SigfoxClient.post, h],
      by simp [SigfoxClient.put, h], by simp [SigfoxClient.delete, h]⟩

/-- Witness for claim C5: a transport that always fails at the
connection level, evaluated on all four operations. -/
theorem claim5_witness :
    (∀ q, netFailSend q = .networkFailure "getaddrinfo failed") ∧
    ((demoClient.get netFailSend "/devices/" []).2 =
        .error (.networkError "Network error: getaddrinfo failed") ∧
      (demoClient.post netFailSend "/devices/" none []).2 =
        .error (.networkError "Network error: getaddrinfo failed") ∧
      (demoClient.put netFailSend "/devices/" none []).2 =
        .error (.networkError "Network error: getaddrinfo failed") ∧
      (demoClient.delete netFailSend "/devices/" []).2 =
        .error (.networkError "Network error: getaddrinfo failed")) :=
  ⟨fun _ => rfl,
    (claim5_network_errors demoClient netFailSend "/devices/" none []
      "getaddrinfo failed").1 (fun _ => rfl)⟩

/-- Claim C1: the request layer exposes get, post, put and delete, each
issuing one request (the operations return the single request they
send) carrying the JSON Accept and Content-Type headers and the
basic-auth credentials, returning the parsed JSON body on success, with
put and delete classified by the same _handle_error as get and post;
and the facade update and delete succeed through client.put and
client.delete whenever the server answers 2xx with no meaningful
body. -/
theorem claim1_request_layer (c : SigfoxClient) (send : HttpRequest → TransportResult)
    (path : String) (body : Option Json) (params : Params) :
    ((c.get send path params).1.method = "GET" ∧
      (c.get send path params).1.url = c.baseUrl ++ path ∧
      (c.get send path params).1.headers = jsonHeaders ∧
      (c.get send path params).1.auth = (c.apiLogin, c.apiPassword)) ∧
    ((c.post send path body params).1.method = "POST" ∧
      (c.post send path body params).1.jsonData = body ∧
      (c.post send path body params).1.headers = jsonHeaders ∧
      (c.post send path body params).1.auth = (c.apiLogin, c.apiPassword)) ∧
    ((c.put send path body params).1.method = "PUT" ∧
      (c.put send path body params).1.jsonData = body ∧
      (c.put send path body params).1.headers = jsonHeaders ∧
      (c.put send path body params).1.auth = (c.apiLogin, c.apiPassword)) ∧
    ((c.delete send path params).1.method = "DELETE" ∧
      (c.delete send path params).1.headers = jsonHeaders ∧
      (c.delete send path params).1.auth = (c.apiLogin, c.apiPassword)) ∧
    (∀ r j, (∀ q, send q = .response r) → 200 ≤ r.status → r.status < 300 →
      r.jsonBody = some j →
      (c.get send path params).2 = .ok j ∧
      (c.post send path body params).2 = .ok j ∧
      (r.text ≠ "" →
        (c.put send path body params).2 = .ok j ∧
        (c.delete send path params).2 = .ok j)) ∧
    (∀ r e, (∀ q, send q = .response r) → handleError r = some e →
      (c.get send path params).2 = .error e ∧
      (c.post send path body params).2 = .error e ∧
      (c.put send path body params).2 = .error e ∧
      (c.delete send path params).2 = .error e) ∧
    (∀ r (deviceId : String) (upd : DeviceUpdate),
      (∀ q, send q = .response r) → 200 ≤ r.status → r.status < 300 → r.text = "" →
      (DevicesAPI.update c send deviceId upd).2 = .ok () ∧
      (DevicesAPI.delete c send deviceId).2 = .ok ()) := by
  refine ⟨⟨rfl, rfl, rfl, rfl⟩, ⟨rfl, rfl, rfl, rfl⟩, ⟨rfl, rfl, rfl, rfl⟩,
    ⟨rfl, rfl, rfl⟩, ?_, ?_, ?_⟩
  · intro r j hsend hs1 hs2 hj
    have hh : handleError r = none := by
      unfold handleError
      rw [if_pos ⟨hs1, hs2⟩]
    refine ⟨by simp [SigfoxClient.get, hsend, hh, hj],
      by simp [SigfoxClient.post, hsend, hh, hj], ?_⟩
    intro ht
    exact ⟨by simp [SigfoxClient.put, hsend, hh, hj, ht],
      by simp [SigfoxClient.delete, hsend, hh, hj, ht]⟩
  · intro r e hsend he
    exact ⟨by simp [SigfoxClient.get, hsend, he],
      by simp [SigfoxClient.post, hsend, he],
      by simp [SigfoxClient.put, hsend, he],
      by simp [SigfoxClient.delete, hsend, he]⟩
  · intro r deviceId upd hsend hs1 hs2 ht
    have hh : handleError r = none := by
      unfold handleError
      rw [if_pos ⟨hs1, hs2⟩]
    exact ⟨by simp [DevicesAPI.update, SigfoxClient.put, hsend, hh, ht],
      by simp [DevicesAPI.delete, SigfoxClient.delete, hsend, hh, ht]⟩

/-- Witness for claim C1: get and post return the parsed body of a 200
response, and the facade update and delete succeed on a 204 with no
body. -/
theorem claim1_witness :
    ((∀ q, sendOkBody q = .response rOk) ∧
      rOk.jsonBody = some (.obj [("id", Json.str "1A2B3C")]) ∧
      200 ≤ rOk.status ∧ rOk.status < 300) ∧
    ((demoClient.get sendOkBody "/devices/" []).2 = .ok (.obj [("id", Json.str "1A2B3C")]) ∧
      (demoClient.post sendOkBody "/devices/" none []).2 = .ok (.obj [("id", Json.str "1A2B3C")])) ∧
    ((∀ q, send204 q = .response { status := 204, text := "", jsonBody := none }) ∧
      (DevicesAPI.update demoClient send204 "8C123" emptyUpdate).2 = .ok () ∧
      (DevicesAPI.delete demoClient send204 "8C123").2 = .ok ()) := by
  refine ⟨⟨fun _ => rfl, rfl, by decide, by decide⟩, ?_, ⟨fun _ => rfl, ?_⟩⟩
  · have h := ((claim1_request_layer demoClient sendOkBody "/devices/" none
        []).2.2.2.2.1) rOk (.obj [("id", Json.str "1A2B3C")]) (fun _ => rfl)
        (by decide) (by decide) rfl
    exact ⟨h.1, h.2.1⟩
  · exact ((claim1_request_layer demoClient send204 "/devices/" none
      []).2.2.2.2.2.2) { status := 204, text := "", jsonBody := none }
      "8C123" emptyUpdate (fun _ => rfl) (by decide) (by decide) rfl

theorem isSome_map {α β : Type} (f : α → β) (o : Option α) :
    (o.map f).isSome = o.isSome := by
  cases o <;> rfl

theorem optDump_map_fst (nm : String) (o : Option Json) :
    (optDump nm o).map Prod.fst = if o.isSome then [nm] else [] := by
  cases o <;> rfl

/-- Claim C7: serializing a Create or Update payload produces exactly
the set fields under their camelCase wire names and no others (None
fields are omitted entirely, never sent as null or empty), and the
facade create and update requests carry exactly that serialized
body. -/
theorem claim7_payload_serialization (d : DeviceCreate) (u : DeviceUpdate) :
    d.dump.map Prod.fst = d.specSetWireKeys ∧
    lookupKey d.dump "deviceTypeId" = some (.str d.device_type_id) ∧
    u.dump.map Prod.fst = u.specSetWireKeys ∧
    (∀ c send, (DevicesAPI.create c send d).1.jsonData = some (.obj d.dump)) ∧
    (∀ c send deviceId, (DevicesAPI.update c send deviceId u).1.jsonData =
      some (.obj u.dump)) := by
  refine ⟨?_, rfl, ?_, fun c send => rfl, fun c send deviceId => rfl⟩
  · simp [DeviceCreate.dump, DeviceCreate.specSetWireKeys, optDump_map_fst, isSome_map]
  · simp [DeviceUpdate.dump, DeviceUpdate.specSetWireKeys, optDump_map_fst, isSome_map]

theorem allCongr {α : Type} {l : List α} {p q : α → Bool}
    (h : ∀ a ∈ l, p a = q a) : l.all p = l.all q := by
  induction l with
  | nil => rfl
  | cons a t ih =>
    simp only [List.all_cons, h a (by simp)]
    rw [ih fun b hb => h b (by simp [hb])]

theorem knownKey_of_mem_wire {specs : List FieldSpec} {s : FieldSpec} (hs : s ∈ specs) :
    knownKey specs s.wireName = true := by
  simp only [knownKey, List.any_eq_true]
  exact ⟨s, hs, by simp⟩

theorem knownKey_of_mem_py {specs : List FieldSpec} {s : FieldSpec} (hs : s ∈ specs) :
    knownKey specs s.pyName = true := by
  simp only [knownKey, List.any_eq_true]
  exact ⟨s, hs, by simp⟩

theorem parseField_append_unknown {specs : List FieldSpec} {s : FieldSpec} (hs : s ∈ specs)
    {fs ys : List (String × Json)} (hys : ∀ p ∈ ys, knownKey specs p.1 = false) :
    parseField (fs ++ ys) s = parseField fs s := by
  have hw : ∀ p ∈ ys, p.1 ≠ s.wireName := by
    intro p hp heq
    have h1 := hys p hp
    rw [heq, knownKey_of_mem_wire hs] at h1
    exact Bool.noConfusion h1
  have hp : ∀ p ∈ ys, p.1 ≠ s.pyName := by
    intro p hp heq
    have h1 := hys p hp
    rw [heq, knownKey_of_mem_py hs] at h1
    exact Bool.noConfusion h1
  simp [parseField, lookupKey_append_unknown hw, lookupKey_append_unknown hp]

theorem recordOk_append_unknown {specs : List FieldSpec}
    {fs ys : List (String × Json)} (hys : ∀ p ∈ ys, knownKey specs p.1 = false) :
    recordOk specs (fs ++ ys) = recordOk specs fs := by
  unfold recordOk
  exact allCongr fun s hs => by
    simp [checkField, parseField_append_unknown hs hys]

theorem validateRecord_append_unknown (specs : List FieldSpec)
    (fs ys : List (String × Json)) (hys : ∀ p ∈ ys, knownKey specs p.1 = false) :
    ((validateRecord specs (.obj (fs ++ ys))).isOk =
      (validateRecord specs (.obj fs)).isOk) ∧
    ∀ rec, validateRecord specs (.obj (fs ++ ys)) = .ok rec →
      ∀ p ∈ ys, p ∈ rec.extra := by
  constructor
  · simp only [validateRecord, recordOk_append_unknown hys]
    cases h : recordOk specs fs <;> simp [h, Except.isOk, Except.toBool]
  · intro rec hrec p hp
    simp only [validateRecord] at hrec
    cases h : recordOk specs (fs ++ ys) with
    | false => rw [h] at hrec; simp at hrec
    | true =>
      rw [h] at hrec
      simp only [if_true] at hrec
      have hx : rec.extra = (fs ++ ys).filter (fun p => !knownKey specs p.1) := by
        cases hrec
        rfl
      rw [hx]
      exact List.mem_filter.mpr ⟨List.mem_append.mpr (Or.inr hp), by simp [hys p hp]⟩

/-- Claim C9: validating a server object never fails because of unknown
keys (appending pairs with unknown keys leaves success unchanged), and
every unknown pair is preserved in the resulting record through the
catch-all extra mapping; shown for the Device and CoverageBulkResponse
name tables, whose pydantic models (like every model of the package)
declare extra=allow. -/
theorem claim9_unknown_fields_passthrough (fs ys : List (String × Json))
    (hdev : ∀ p ∈ ys, knownKey deviceFields p.1 = false)
    (hcov : ∀ p ∈ ys, knownKey coverageBulkResponseFields p.1 = false) :
    ((validateRecord deviceFields (.obj (fs ++ ys))).isOk =
      (validateRecord deviceFields (.obj fs)).isOk) ∧
    (∀ rec, validateRecord deviceFields (.obj (fs ++ ys)) = .ok rec →
      ∀ p ∈ ys, p ∈ rec.extra) ∧
    ((validateRecord coverageBulkResponseFields (.obj (fs ++ ys))).isOk =
      (validateRecord coverageBulkResponseFields (.obj fs)).isOk) ∧
    (∀ rec, validateRecord coverageBulkResponseFields (.obj (fs ++ ys)) = .ok rec →
      ∀ p ∈ ys, p ∈ rec.extra) :=
  ⟨(validateRecord_append_unknown deviceFields fs ys hdev).1,
    (validateRecord_append_unknown deviceFields fs ys hdev).2,
    (validateRecord_append_unknown coverageBulkResponseFields fs ys hcov).1,
    (validateRecord_append_unknown coverageBulkResponseFields fs ys hcov).2⟩

/-- Witness for claim C9: a device object with an unknown key validates
like the same object without it, and keeps the unknown pair. -/
theorem claim9_witness :
    (∀ p ∈ [("mystery", Json.num 7)], knownKey deviceFields p.1 = false) ∧
    (∀ p ∈ [("mystery", Json.num 7)], knownKey coverageBulkResponseFields p.1 = false) ∧
    (((validateRecord deviceFields
          (.obj ([("id", Json.str "8C123")] ++ [("mystery", Json.num 7)]))).isOk =
        (validateRecord deviceFields (.obj [("id", Json.str "8C123")])).isOk) ∧
      (∀ rec, validateRecord deviceFields
          (.obj ([("id", Json.str "8C123")] ++ [("mystery", Json.num 7)])) = .ok rec →
        ∀ p ∈ [("mystery", Json.num 7)], p ∈ rec.extra) ∧
      ((validateRecord coverageBulkResponseFields
          (.obj ([("id", Json.str "8C123")] ++ [("mystery", Json.num 7)]))).isOk =
        (validateRecord coverageBulkResponseFields (.obj [("id", Json.str "8C123")])).isOk) ∧
      (∀ rec, validateRecord coverageBulkResponseFields
          (.obj ([("id", Json.str "8C123")] ++ [("mystery", Json.num 7)])) = .ok rec →
        ∀ p ∈ [("mystery", Json.num 7)], p ∈ rec.extra)) :=
  ⟨by decide, by decide,
    claim9_unknown_fields_passthrough [("id", Json.str "8C123")]
      [("mystery", Json.num 7)] (by decide) (by decide)⟩

theorem isArr_exists {j : Json} (h : j.isArr = true) : ∃ xs, j = .arr xs := by
  cases j <;> first
    | exact ⟨_, rfl⟩
    | exact absurd h (by simp [Json.isArr])

theorem getPaginatedLoop_limit_bound (server : Params → Json) (params : Params)
    (l : Nat) (pl : Int)
    (hdata : ∀ ps, ((server ps).getD "data" (.arr [])).isArr = true) :
    ∀ (fuel : Nat) (off : Int) (acc : List Json),
      l + 1 ≤ acc.length + fuel → (acc.length < l ∨ acc = []) →
      ∃ res reqs,
        getPaginatedLoop server params (some l) pl off acc fuel = some (res, reqs) ∧
        res.length ≤ l ∧ reqs.length ≤ fuel := by
  intro fuel
  induction fuel with
  | zero =>
    intro off acc h1 h2
    exfalso
    rcases h2 with h2 | h2
    · omega
    · subst h2
      simp at h1
  | succ f ih =>
    intro off acc h1 h2
    have hlen : acc.length ≤ l := by
      rcases h2 with h2 | h2
      · omega
      · subst h2; simp
    obtain ⟨xs, hxs⟩ := isArr_exists
      (hdata (setParam (setParam params "offset" (.num off)) "limit" (.num pl)))
    simp only [getPaginatedLoop]
    rw [hxs]
    cases xs with
    | nil =>
      simp only [Json.falsy, List.isEmpty_nil, if_true]
      exact ⟨acc, _, rfl, hlen, by simp⟩
    | cons x xt =>
      simp only [Json.falsy, List.isEmpty_cons, Json.asArr]
      by_cases hl : l ≤ (acc ++ x :: xt).length
      · rw [if_pos (decide_eq_true hl)]
        exact ⟨_, _, rfl, by simp [List.length_take], by simp⟩
      · simp only [decide_eq_false hl, Bool.false_eq_true, if_false]
        cases hn : pyFalsyOpt
            (((server (setParam (setParam params "offset" (Json.num off))
              "limit" (Json.num pl))).getD "paging" (.obj [])).getOpt "next") with
        | true =>
          simp only [hn, if_true]
          exact ⟨_, _, rfl, by simp at hl ⊢; omega, by simp⟩
        | false =>
          simp only [hn, Bool.false_eq_true, if_false]
          have h1p : l + 1 ≤ (acc ++ x :: xt).length + f := by
            simp only [List.length_append, List.length_cons]
            omega
          have h2p : (acc ++ x :: xt).length < l ∨ acc ++ x :: xt = [] := by
            left
            omega
          obtain ⟨res, reqs, heq, hr, hq⟩ :=
            ih (off + ((x :: xt).length : Int)) (acc ++ x :: xt) h1p h2p
          rw [heq]
          exact ⟨res, _ :: reqs, rfl, hr, by simpa using hq⟩

/-- Claim C10: for every caller-supplied numeric limit and every server
behaviour with array-valued data fields, get_paginated finishes within
limit + 1 page requests (fuel limit + 1 suffices and the loop reaches a
break, never the fuel bound) and returns at most limit items, because
every non-final iteration adds at least one item and the loop breaks
once the accumulated count reaches the limit. -/
theorem claim10_bounded_termination (server : Params → Json) (params : Params)
    (l : Nat) (hdata : ∀ ps, ((server ps).getD "data" (.arr [])).isArr = true) :
    ∃ res reqs, getPaginated server params (some l) (l + 1) = some (res, reqs) ∧
      res.length ≤ l ∧ reqs.length ≤ l + 1 := by
  have h := getPaginatedLoop_limit_bound server params l (getIntD params "limit" 100)
    hdata (l + 1) (getIntD params "offset" 0) [] (by simp) (Or.inr rfl)
  simpa [getPaginated] using h

/-- Witness for claim C10: the bound evaluated against a server always
returning an empty page, with limit 2. -/
theorem claim10_witness :
    (∀ ps, ((emptyPageServer ps).getD "data" (Json.arr [])).isArr = true) ∧
    ∃ res reqs, getPaginated emptyPageServer [] (some 2) 3 = some (res, reqs) ∧
      res.length ≤ 2 ∧ reqs.length ≤ 3 :=
  ⟨fun _ => rfl, claim10_bounded_termination emptyPageServer [] 2 (fun _ => rfl)⟩

/-- Claim C6: a non-empty array-valued filter is serialized into a
single comma-joined query parameter appearing exactly once (groupIds
for devices, parentIds for groups), a boolean flag serializes to the
literal string true when set, and is omitted entirely when not; and
the devices list request carries exactly the built params. -/
theorem claim6_filter_serialization :
    (∀ (limit offset : Option Int) (dt : Option String) (gs : List String)
        (deep : Bool) (sort : Option String), gs ≠ [] →
      countKey (devicesListParams limit offset dt (some gs) deep sort) "groupIds" = 1 ∧
      lookupKey (devicesListParams limit offset dt (some gs) deep sort) "groupIds" =
        some (.str (String.intercalate "," gs)) ∧
      countKey (devicesListParams limit offset dt (some gs) true sort) "deep" = 1 ∧
      lookupKey (devicesListParams limit offset dt (some gs) true sort) "deep" =
        some (.str "true") ∧
      countKey (devicesListParams limit offset dt (some gs) false sort) "deep" = 0 ∧
      ∀ c send, (DevicesAPI.list c send limit offset dt (some gs) deep sort).1.params =
        devicesListParams limit offset dt (some gs) deep sort) ∧
    (∀ (limit offset : Option Int) (ps : List String) (deep : Bool)
        (nameFilter : Option String) (types : Option (List Int))
        (fieldsFilter action sort : Option String) (auths : Bool)
        (pageId : Option String), ps ≠ [] →
      countKey (groupsListParams limit offset (some ps) deep nameFilter types
        fieldsFilter action sort auths pageId) "parentIds" = 1 ∧
      lookupKey (groupsListParams limit offset (some ps) deep nameFilter types
        fieldsFilter action sort auths pageId) "parentIds" =
        some (.str (String.intercalate "," ps)) ∧
      countKey (groupsListParams limit offset (some ps) true nameFilter types
        fieldsFilter action sort auths pageId) "deep" = 1 ∧
      countKey (groupsListParams limit offset (some ps) false nameFilter types
        fieldsFilter action sort auths pageId) "deep" = 0) := by
  constructor
  · intro limit offset dt gs deep sort hgs
    have cA : countKey (optNumParam "limit" limit) "groupIds" = 0 :=
      countKey_optNum _ _ _ (by decide)
    have cB : countKey (optNumParam "offset" offset) "groupIds" = 0 :=
      countKey_optNum _ _ _ (by decide)
    have cC : countKey (truthyStrParam "deviceTypeId" dt) "groupIds" = 0 :=
      countKey_truthyStr _ _ _ (by decide)
    have cD : countKey (joinListParam "groupIds" (some gs)) "groupIds" = 1 :=
      countKey_joinList_self _ hgs
    have cE : ∀ b, countKey (flagParam "deep" b) "groupIds" = 0 :=
      fun b => countKey_flag _ _ _ (by decide)
    have cF : countKey (truthyStrParam "sort" sort) "groupIds" = 0 :=
      countKey_truthyStr _ _ _ (by decide)
    have dA : countKey (optNumParam "limit" limit) "deep" = 0 :=
      countKey_optNum _ _ _ (by decide)
    have dB : countKey (optNumParam "offset" offset) "deep" = 0 :=
      countKey_optNum _ _ _ (by decide)
    have dC : countKey (truthyStrParam "deviceTypeId" dt) "deep" = 0 :=
      countKey_truthyStr _ _ _ (by decide)
    have dD : countKey (joinListParam "groupIds" (some gs)) "deep" = 0 :=
      countKey_joinList _ _ _ (by decide)
    have dF : countKey (truthyStrParam "sort" sort) "deep" = 0 :=
      countKey_truthyStr _ _ _ (by decide)
    refine ⟨?_, ?_, ?_, ?_, ?_, fun c send => rfl⟩
    · simp [devicesListParams, countKey_append, cA, cB, cC, cD, cE, cF]
    · have h0 : lookupKey (optNumParam "limit" limit ++ optNumParam "offset" offset
          ++ truthyStrParam "deviceTypeId" dt) "groupIds" = none :=
        lookupKey_eq_none_of_countKey_zero (by simp [countKey_append, cA, cB, cC])
      have hD : lookupKey (joinListParam "groupIds" (some gs)) "groupIds" =
          some (.str (String.intercalate "," gs)) := by
        simp [joinListParam, hgs, lookupKey]
      simp only [devicesListParams]
      exact lookupKey_append_left _ (lookupKey_append_left _
        ((lookupKey_append_of_none _ h0).trans hD))
    · simp [devicesListParams, countKey_append, dA, dB, dC, dD, dF, countKey_flag_true]
    · have h0 : lookupKey (optNumParam "limit" limit ++ optNumParam "offset" offset
          ++ truthyStrParam "deviceTypeId" dt ++ joinListParam "groupIds" (some gs))
          "deep" = none :=
        lookupKey_eq_none_of_countKey_zero (by simp [countKey_append, dA, dB, dC, dD])
      have hE : lookupKey (flagParam "deep" true) "deep" = some (.str "true") := by
        simp [flagParam, lookupKey]
      simp only [devicesListParams]
      exact lookupKey_append_left _ ((lookupKey_append_of_none _ h0).trans hE)
    · have dE0 : countKey (flagParam "deep" false) "deep" = 0 := rfl
      simp [devicesListParams, countKey_append, dA, dB, dC, dD, dF, dE0]
  · intro limit offset ps deep nameFilter types fieldsFilter action sort auths pageId hps
    have cA : countKey (optNumParam "limit" limit) "parentIds" = 0 :=
      countKey_optNum _ _ _ (by decide)
    have cB : countKey (optNumParam "offset" offset) "parentIds" = 0 :=
      countKey_optNum _ _ _ (by decide)
    have cC : countKey (joinListParam "parentIds" (some ps)) "parentIds" = 1 :=
      countKey_joinList_self _ hps
    have cD : ∀ b, countKey (flagParam "deep" b) "parentIds" = 0 :=
      fun b => countKey_flag _ _ _ (by decide)
    have cE : countKey (truthyStrParam "name" nameFilter) "parentIds" = 0 :=
      countKey_truthyStr _ _ _ (by decide)
    have cF : countKey (intListParam "types" types) "parentIds" = 0 :=
      countKey_intList _ _ _ (by decide)
    have cG : countKey (truthyStrParam "fields" fieldsFilter) "parentIds" = 0 :=
      countKey_truthyStr _ _ _ (by decide)
    have cH : countKey (truthyStrParam "action" action) "parentIds" = 0 :=
      countKey_truthyStr _ _ _ (by decide)
    have cI : countKey (truthyStrParam "sort" sort) "parentIds" = 0 :=
      countKey_truthyStr _ _ _ (by decide)
    have cJ : ∀ b, countKey (flagParam "authorizations" b) "parentIds" = 0 :=
      fun b => countKey_flag _ _ _ (by decide)
    have cK : countKey (truthyStrParam "pageId" pageId) "parentIds" = 0 :=
      countKey_truthyStr _ _ _ (by decide)
    have dA : countKey (optNumParam "limit" limit) "deep" = 0 :=
      countKey_optNum _ _ _ (by decide)
    have dB : countKey (optNumParam "offset" offset) "deep" = 0 :=
      countKey_optNum _ _ _ (by decide)
    have dC : countKey (joinListParam "parentIds" (some ps)) "deep" = 0 :=
      countKey_joinList _ _ _ (by decide)
    have dE : countKey (truthyStrParam "name" nameFilter) "deep" = 0 :=
      countKey_truthyStr _ _ _ (by decide)
    have dF : countKey (intListParam "types" types) "deep" = 0 :=
      countKey_intList _ _ _ (by decide)
    have dG : countKey (truthyStrParam "fields" fieldsFilter) "deep" = 0 :=
      countKey_truthyStr _ _ _ (by decide)
    have dH : countKey (truthyStrParam "action" action) "deep" = 0 :=
      countKey_truthyStr _ _ _ (by decide)
    have dI : countKey (truthyStrParam "sort" sort) "deep" = 0 :=
      countKey_truthyStr _ _ _ (by decide)
    have dJ : ∀ b, countKey (flagParam "authorizations" b) "deep" = 0 :=
      fun b => countKey_flag _ _ _ (by decide)
    have dK : countKey (truthyStrParam "pageId" pageId) "deep" = 0 :=
      countKey_truthyStr _ _ _ (by decide)
    refine ⟨?_, ?_, ?_, ?_⟩
    · simp [groupsListParams, countKey_append, cA, cB, cC, cD, cE, cF, cG, cH, cI, cJ, cK]
    · have h0 : lookupKey (optNumParam "limit" limit ++ optNumParam "offset" offset)
          "parentIds" = none :=
        lookupKey_eq_none_of_countKey_zero (by simp [countKey_append, cA, cB])
      have hC : lookupKey (joinListParam "parentIds" (some ps)) "parentIds" =
          some (.str (String.intercalate "," ps)) := by
        simp [joinListParam, hps, lookupKey]
      simp only [groupsListParams]
      exact lookupKey_append_left _ (lookupKey_append_left _ (lookupKey_append_left _
        (lookupKey_append_left _ (lookupKey_append_left _ (lookupKey_append_left _
          (lookupKey_append_left _ (lookupKey_append_left _
            ((lookupKey_append_of_none _ h0).trans hC))))))))
    · simp [groupsListParams, countKey_append, dA, dB, dC, dE, dF, dG, dH, dI, dJ, dK,
        countKey_flag_true]
    · have dD0 : countKey (flagParam "deep" false) "deep" = 0 := rfl
      simp [groupsListParams, countKey_append, dA, dB, dC, dD0, dE, dF, dG, dH, dI, dJ, dK]

/-- Witness for claim C6: the devices filters evaluated at
group_ids equal to a and b with every other filter unset. -/
theorem claim6_witness :
    ((["a", "b"] : List String) ≠ []) ∧
    (countKey (devicesListParams none none none (some ["a", "b"]) false none) "groupIds" = 1 ∧
      lookupKey (devicesListParams none none none (some ["a", "b"]) false none) "groupIds" =
        some (.str "a,b") ∧
      countKey (devicesListParams none none none (some ["a", "b"]) true none) "deep" = 1 ∧
      lookupKey (devicesListParams none none none (some ["a", "b"]) true none) "deep" =
        some (.str "true") ∧
      countKey (devicesListParams none none none (some ["a", "b"]) false none) "deep" = 0 ∧
      ∀ c send, (DevicesAPI.list c send none none none (some ["a", "b"]) false none).1.params =
        devicesListParams none none none (some ["a", "b"]) false none) :=
  ⟨by decide,
    claim6_filter_serialization.1 none none none ["a", "b"] false none (by decide)⟩

end Sigfox
